import Mathlib

/-!
Shallow embedding of the ai-ran telemetry monitor
(`src/monitor_telemetry.py` and `src/monitor_telemetry_gui.py`) and proofs
about its entity resolution, alert evaluation, statistics and state store.

JSON documents decoded by `json.loads` are modelled by the inductive `JVal`.
Python integers and floats are kept as separate constructors because
`str()` renders them differently; float arithmetic is idealised as exact
rational arithmetic.  Fallible Python operations (subscripting, attribute
access, numeric coercion inside comparisons and float formatting) are
modelled in the `Except Err` monad; an uncaught exception in the original
code corresponds to an `Except.error` value here.
-/

namespace AiRan

/-- A decoded JSON value (the result of `json.loads`).  JSON `null` decodes
to Python `None`; objects keep their key order (keys of an object decoded
from JSON are unique). -/
inductive JVal where
  | null
  | bool (b : Bool)
  | int (n : Int)
  | float (q : ℚ)
  | str (s : String)
  | arr (elems : List JVal)
  | obj (fields : List (String × JVal))

/-- A decoded JSON object: an ordered association list, as produced by
`json.loads` (unique keys, insertion order preserved). -/
abbrev Obj := List (String × JVal)

mutual
/-- Python `==` on decoded JSON values.  Numbers (and `bool`, which is an
`int` subclass in Python) compare across representations; values of
unrelated types compare unequal without raising.  Python compares dicts
ignoring key order; since objects decoded from JSON have unique keys and
claims never compare two dicts, dict comparison is modelled pairwise in
order. -/
def pyEq : JVal → JVal → Bool
  | .null, .null => true
  | .bool a, .bool b => a == b
  | .bool a, .int n => (if a then (1 : Int) else 0) == n
  | .int n, .bool a => n == (if a then (1 : Int) else 0)
  | .bool a, .float q => (if a then (1 : ℚ) else 0) == q
  | .float q, .bool a => q == (if a then (1 : ℚ) else 0)
  | .int m, .int n => m == n
  | .int m, .float q => (m : ℚ) == q
  | .float q, .int n => q == (n : ℚ)
  | .float p, .float q => p == q
  | .str a, .str b => a == b
  | .arr xs, .arr ys => pyEqList xs ys
  | .obj a, .obj b => pyEqObj a b
  | _, _ => false
/-- Python `==` on lists, elementwise. -/
def pyEqList : List JVal → List JVal → Bool
  | [], [] => true
  | x :: xs, y :: ys => pyEq x y && pyEqList xs ys
  | _, _ => false
/-- Python `==` on dicts with unique keys, pairwise in insertion order. -/
def pyEqObj : List (String × JVal) → List (String × JVal) → Bool
  | [], [] => true
  | (k, v) :: xs, (k', v') :: ys => k == k' && pyEq v v' && pyEqObj xs ys
  | _, _ => false
end

mutual
theorem pyEq_refl : (v : JVal) → pyEq v v = true
  | .null => rfl
  | .bool b => by simp [pyEq]
  | .int n => by simp [pyEq]
  | .float q => by simp [pyEq]
  | .str s => by simp [pyEq]
  | .arr xs => by simp [pyEq]; exact pyEqList_refl xs
  | .obj kvs => by simp [pyEq]; exact pyEqObj_refl kvs
theorem pyEqList_refl : (xs : List JVal) → pyEqList xs xs = true
  | [] => rfl
  | x :: xs => by simp [pyEqList]; exact ⟨pyEq_refl x, pyEqList_refl xs⟩
theorem pyEqObj_refl : (xs : List (String × JVal)) → pyEqObj xs xs = true
  | [] => rfl
  | (k, v) :: xs => by simp [pyEqObj]; exact ⟨pyEq_refl v, pyEqObj_refl xs⟩
end

/-- Test for the Python `None` value (JSON `null`). -/
def JVal.isNull : JVal → Bool
  | .null => true
  | _ => false

/-- Python `str()` on a decoded JSON value.  The telemetry only ever
stringifies scalar identifiers (integers or strings); rendering of
non-integral floats and of containers is idealised, no identifier in the
program takes those shapes. -/
def pyStr : JVal → String
  | .null => "None"
  | .bool true => "True"
  | .bool false => "False"
  | .int n => toString n
  | .float q => if q.den = 1 then toString q.num ++ ".0" else toString q
  | .str s => s
  | .arr _ => "<list>"
  | .obj _ => "<dict>"

/-- Python truthiness (`bool(v)`) of a decoded JSON value. -/
def truthy : JVal → Bool
  | .null => false
  | .bool b => b
  | .int n => n != 0
  | .float q => q != 0
  | .str s => s != ""
  | .arr xs => !xs.isEmpty
  | .obj kvs => !kvs.isEmpty

/-- The exceptions the monitor's hot path can raise while traversing a
decoded snapshot.  `process_packet` catches all of them alike, so only the
fact that an exception is raised matters to the proofs. -/
inductive Err where
  | keyError (k : String)
  | typeError
  | attrError

/-- Key lookup in a decoded JSON object (first match; keys are unique in
objects produced by `json.loads`). -/
def lookupO (o : Obj) (k : String) : Option JVal :=
  (o.find? (fun kv => kv.1 == k)).map (·.2)

/-- Python `dict.get(k, d)` on an object already known to be a dict. -/
def ogetD (o : Obj) (k : String) (d : JVal) : JVal :=
  (lookupO o k).getD d

/-- Python key membership `k in o` on a dict. -/
def containsO (o : Obj) (k : String) : Bool :=
  (lookupO o k).isSome

/-- Python subscripting `v[k]` with a string key: `KeyError` when the dict
lacks the key, `TypeError` when `v` is not a dict (string and list
subscripts must be integers). -/
def osub (v : JVal) (k : String) : Except Err JVal :=
  match v with
  | .obj o =>
    match lookupO o k with
    | some x => .ok x
    | none => .error (.keyError k)
  | _ => .error .typeError

/-- Python `v.get(k, d)`: `AttributeError` when `v` is not a dict. -/
def jgetD (v : JVal) (k : String) (d : JVal) : Except Err JVal :=
  match v with
  | .obj o => .ok (ogetD o k d)
  | _ => .error .attrError

/-- Substring test, for Python `k in s` on strings. -/
def strContains (s sub : String) : Bool :=
  (List.range (s.length + 1)).any fun i =>
    ((s.data.drop i).take sub.length) == sub.data

/-- Python membership `k in v` for a string key `k`: key membership on a
dict, substring test on a string, elementwise `==` on a list, `TypeError`
otherwise. -/
def pyInJ (k : String) (v : JVal) : Except Err Bool :=
  match v with
  | .obj o => .ok (containsO o k)
  | .str s => .ok (strContains s k)
  | .arr xs => .ok (xs.any (fun x => pyEq (.str k) x))
  | _ => .error .typeError

/-- The numeric value a Python comparison such as `loss > 50` or a float
format such as `f-string :.1f` works with: ints, floats and bools are
numbers (`True == 1`), anything else raises `TypeError`/`ValueError`. -/
def asNum : JVal → Except Err ℚ
  | .int n => .ok (n : ℚ)
  | .float q => .ok q
  | .bool b => .ok (if b then 1 else 0)
  | _ => .error .typeError

/-- Python iteration `for x in v`: a list yields its elements, a string its
characters, a dict its keys; scalars raise `TypeError`. -/
def iterElems : JVal → Except Err (List JVal)
  | .arr xs => .ok xs
  | .str s => .ok (s.data.map (fun c => .str (String.mk [c])))
  | .obj kvs => .ok (kvs.map (fun kv => .str kv.1))
  | _ => .error .typeError

/-- Python slicing `v[-n:]` followed by iteration: the last `n` elements of
a list (or characters of a string); dicts and scalars are not sliceable. -/
def sliceLast (n : Nat) : JVal → Except Err (List JVal)
  | .arr xs => .ok (xs.drop (xs.length - n))
  | .str s => .ok ((s.data.drop (s.data.length - n)).map (fun c => .str (String.mk [c])))
  | _ => .error .typeError

/-! ## Alert engine (`TelemetryMonitor.check_alerts`, monitor_telemetry.py 189-232)

Every `alerts.append(...)` site in `check_alerts` appends a distinct format
string; alerts are modelled by one constructor per site, carrying exactly
the values interpolated into the message.  Slots rendered with a float
format (`:.1f`) carry the rational value of the number (rendering is a
function of that value); slots rendered plainly carry the original value. -/

/-- One alert message, by originating rule. -/
inductive Alert where
  | highLoss (loss : ℚ)
  | elevatedLoss (loss : ℚ)
  | stationary (ueId : JVal)
  | severeDlLoss (ueId : JVal) (loss : ℚ)
  | overloaded (cellId : JVal) (count : JVal)
  | noUes (cellId : JVal)

/-- The "HIGH PACKET LOSS" message (the spec's single "high"-severity
alert; every other rule is "medium"). -/
def isHighAlert : Alert → Bool
  | .highLoss _ => true
  | _ => false

/-- The "Elevated packet loss" message. -/
def isElevatedAlert : Alert → Bool
  | .elevatedLoss _ => true
  | _ => false

/-- The per-UE "not moving (waypoint)" message. -/
def isStationaryAlert : Alert → Bool
  | .stationary _ => true
  | _ => false

/-- The per-UE "severe DL loss" message. -/
def isSevereDlAlert : Alert → Bool
  | .severeDlLoss _ _ => true
  | _ => false

/-- The per-cell messages ("overloaded" / "has no UEs"). -/
def isCellAlert : Alert → Bool
  | .overloaded _ _ => true
  | .noUes _ => true
  | _ => false

/-- Lines 196-199: `if loss > 50: ... elif loss > 30: ...`. -/
def trafficAlertList (loss : ℚ) : List Alert :=
  if loss > 50 then [.highLoss loss]
  else if loss > 30 then [.elevatedLoss loss]
  else []

/-- Lines 194-199: the network-wide packet-loss block.  `loss > 50` raises
`TypeError` when the loss value is not a number. -/
def trafficBlock (state : Obj) : Except Err (List Alert) :=
  match lookupO state "traffic_summary" with
  | none => .ok []
  | some ts => do
      let lv ← osub ts "avg_packet_loss_percent"
      let loss ← asNum lv
      pure (trafficAlertList loss)

/-- Lines 207-211: the stationary-UE check for one UE dict `o` with id
`uid`.  It only runs when a `velocity` key is present; `speed` defaults to
`0` and `mobility_model` to `""` when absent, and `==` never raises. -/
def ueStationaryList (o : Obj) (uid : JVal) : List Alert :=
  if containsO o "velocity" then
    if pyEq (ogetD o "speed" (.int 0)) (.int 0)
        && pyEq (ogetD o "mobility_model" (.str "")) (.str "waypoint") then
      [.stationary uid]
    else []
  else []

/-- Lines 214-217: the per-UE severe-DL-loss check. -/
def ueLossBlock (o : Obj) (uid : JVal) : Except Err (List Alert) :=
  match lookupO o "traffic" with
  | none => .ok []
  | some tr => do
      let dl ← osub tr "dl"
      let lp ← osub dl "loss_percent"
      let q ← asNum lp
      pure (if q > 80 then [.severeDlLoss uid q] else [])

/-- Lines 203-217: the body of the per-UE loop.  `ue['id']` raises
`TypeError` when the element is not a dict. -/
def ueAlerts : JVal → Except Err (List Alert)
  | .obj o => do
      let uid ← osub (.obj o) "id"
      let lossPart ← ueLossBlock o uid
      pure (ueStationaryList o uid ++ lossPart)
  | _ => .error .typeError

/-- The per-UE loop itself, appending into one list; an exception midway
aborts the whole evaluation (the accumulated alerts are discarded). -/
def uesAlerts : List JVal → Except Err (List Alert)
  | [] => .ok []
  | u :: us => do
      let a ← ueAlerts u
      let rest ← uesAlerts us
      pure (a ++ rest)

/-- Lines 221-227: the body of the per-cell loop.  Note the unconditional
subscripts `gnb['attached_ues']['count']` and `gnb['cell_id']`: absence of
either raises `KeyError`.  `ue_count > 8` raises on a non-number; the
`elif ue_count == 0` comparison never raises. -/
def gnbAlert : JVal → Except Err (List Alert)
  | .obj g => do
      let au ← osub (.obj g) "attached_ues"
      let cnt ← osub au "count"
      let cid ← osub (.obj g) "cell_id"
      let q ← asNum cnt
      pure (if q > 8 then [.overloaded cid cnt]
            else if pyEq cnt (.int 0) then [.noUes cid]
            else [])
  | _ => .error .typeError

/-- The per-cell loop. -/
def gnbsAlerts : List JVal → Except Err (List Alert)
  | [] => .ok []
  | g :: gs => do
      let a ← gnbAlert g
      let rest ← gnbsAlerts gs
      pure (a ++ rest)

/-- Lines 202-217: the `if 'topology' in state:` UE block;
`state['topology']['ues']` is an unconditional subscript. -/
def ueBlock (state : Obj) : Except Err (List Alert) :=
  match lookupO state "topology" with
  | none => .ok []
  | some topo => do
      let ues ← osub topo "ues"
      let ul ← iterElems ues
      uesAlerts ul

/-- Lines 220-227: the `if 'topology' in state and 'gnbs' in
state['topology']:` cell block. -/
def gnbBlock (state : Obj) : Except Err (List Alert) :=
  match lookupO state "topology" with
  | none => .ok []
  | some topo => do
      let b ← pyInJ "gnbs" topo
      if b then do
        let gs ← osub topo "gnbs"
        let gl ← iterElems gs
        gnbsAlerts gl
      else pure []

/-- `TelemetryMonitor.check_alerts` (lines 189-232): one list, filled by
the traffic-summary block, then the per-UE loop, then the per-cell loop.
The display of the alerts (lines 229-232) has no further effect. -/
def check_alerts (state : Obj) : Except Err (List Alert) := do
  let a1 ← trafficBlock state
  let a2 ← ueBlock state
  let a3 ← gnbBlock state
  pure (a1 ++ a2 ++ a3)

/-! ## Text report (`TelemetryMonitor.display_state`, monitor_telemetry.py 75-187)

The report's side effect is printing; what the embedding keeps is
(a) exactly which subscript / `get` / format operations run, in source
order, because any of them can raise and abort the packet, and
(b) the rendered distance cell, which claim C6 is about.  Pure string
padding (the `:<4` style column formats) is omitted. -/

/-- The rendered "Distance" column of one UE row: "N/A" when the UE has no
`network` object, otherwise the number formatted by `f-string :.1f`. -/
inductive DistCell where
  | na
  | val (q : ℚ)

/-- Lines 101-105: the position cell (`f"({pos['x']:.1f}, {pos['y']:.1f})"`
when `position` is present). -/
def posBlock (ue : JVal) : Except Err Unit := do
  let b ← pyInJ "position" ue
  if b then do
    let p ← osub ue "position"
    let x ← osub p "x"
    let _ ← asNum x
    let y ← osub p "y"
    let _ ← asNum y
    pure ()
  else pure ()

/-- Lines 108-113: the velocity cell (`speed` defaults to `0`, then is
formatted with `:.1f`). -/
def velBlock (ue : JVal) : Except Err Unit := do
  let b ← pyInJ "velocity" ue
  if b then do
    let _vel ← osub ue "velocity"
    let s ← jgetD ue "speed" (.int 0)
    let _ ← asNum s
    pure ()
  else pure ()

/-- Lines 116-122: the cell/distance columns.  With `network` present the
code subscripts `cell_id` unconditionally and renders
`ue['network'].get('distance_to_gnb', 0)` with `:.1f` — an absent distance
becomes the number `0`.  Without `network` both columns render "N/A". -/
def distBlock (ue : JVal) : Except Err DistCell := do
  let b ← pyInJ "network" ue
  if b then do
    let net1 ← osub ue "network"
    let _cell ← osub net1 "cell_id"
    let net2 ← osub ue "network"
    let d ← jgetD net2 "distance_to_gnb" (.int 0)
    let q ← asNum d
    pure (DistCell.val q)
  else pure DistCell.na

/-- Lines 96-124: one row of the UE table. -/
def displayUeRow (ue : JVal) : Except Err DistCell := do
  let _id ← osub ue "id"
  let _imsi ← osub ue "imsi"
  let _ ← posBlock ue
  let _ ← velBlock ue
  distBlock ue

/-- The UE table loop. -/
def displayRows : List JVal → Except Err (List DistCell)
  | [] => .ok []
  | u :: us => do
      let d ← displayUeRow u
      let rest ← displayRows us
      pure (d :: rest)

/-- Lines 127-132: the traffic-summary section (three unconditional
subscripts, each rendered as a float). -/
def trafficSummarySection (state : JVal) : Except Err Unit := do
  let b ← pyInJ "traffic_summary" state
  if b then do
    let t ← osub state "traffic_summary"
    let a ← osub t "total_dl_throughput_mbps"
    let u ← osub t "total_ul_throughput_mbps"
    let l ← osub t "avg_packet_loss_percent"
    let _ ← asNum a
    let _ ← asNum u
    let _ ← asNum l
    pure ()
  else pure ()

/-- Line 136: `any('traffic' in ue for ue in ...)`, short-circuiting like
Python's `any`. -/
def hasTraffic : List JVal → Except Err Bool
  | [] => .ok false
  | u :: us => do
      let b ← pyInJ "traffic" u
      if b then pure true else hasTraffic us

/-- Lines 142-150: one row of the verbose per-UE traffic table. -/
def ueTrafficRow (u : JVal) : Except Err Unit := do
  let b ← pyInJ "traffic" u
  if b then do
    let _id ← osub u "id"
    let tr ← osub u "traffic"
    let dl ← osub tr "dl"
    let x ← osub dl "throughput_mbps"
    let y ← osub dl "loss_percent"
    let ul ← osub tr "ul"
    let z ← osub ul "throughput_mbps"
    let w ← osub ul "loss_percent"
    let _ ← asNum x
    let _ ← asNum y
    let _ ← asNum z
    let _ ← asNum w
    pure ()
  else pure ()

/-- The verbose per-UE traffic loop. -/
def ueTrafficRows : List JVal → Except Err Unit
  | [] => .ok ()
  | u :: us => do
      let _ ← ueTrafficRow u
      ueTrafficRows us

/-- Lines 135-150: the verbose per-UE traffic section. -/
def verboseTrafficSection (state : JVal) : Except Err Unit := do
  let b ← pyInJ "topology" state
  if b then do
    let topo ← osub state "topology"
    let ues ← osub topo "ues"
    let ul ← iterElems ues
    let ht ← hasTraffic ul
    if ht then ueTrafficRows ul else pure ()
  else pure ()

/-- Lines 162-168: one recent-handover line (five subscripts, then the
timestamp formatted as a float). -/
def hoRow (ho : JVal) : Except Err Unit := do
  let t ← osub ho "timestamp"
  let _ue ← osub ho "ue_id"
  let _src ← osub ho "source_cell_id"
  let _tgt ← osub ho "target_cell_id"
  let _ok ← osub ho "success"
  let _ ← asNum t
  pure ()

/-- The recent-handover loop over `recent_ho[-5:]`. -/
def hoRows : List JVal → Except Err Unit
  | [] => .ok ()
  | h :: hs => do
      let _ ← hoRow h
      hoRows hs

/-- Lines 153-168: the handover section.  `total_count` is an
unconditional subscript, `recent_events` defaults to `[]`, and `total_ho >
0` raises on a non-number. -/
def handoversSection (verbose : Bool) (state : JVal) : Except Err Unit := do
  let b ← pyInJ "handovers" state
  if b then do
    let h1 ← osub state "handovers"
    let total ← osub h1 "total_count"
    let h2 ← osub state "handovers"
    let recent ← jgetD h2 "recent_events" (.arr [])
    let tq ← asNum total
    if tq > 0 then
      if truthy recent && verbose then do
        let last5 ← sliceLast 5 recent
        hoRows last5
      else pure ()
    else pure ()
  else pure ()

/-- Lines 175-179: one recent-event line. -/
def evtRow (e : JVal) : Except Err Unit := do
  let t ← osub e "timestamp"
  let _ty ← osub e "type"
  let _d ← osub e "description"
  let _ ← asNum t
  pure ()

/-- The recent-event loop over `recent_events[-3:]`. -/
def evtRows : List JVal → Except Err Unit
  | [] => .ok ()
  | e :: es => do
      let _ ← evtRow e
      evtRows es

/-- Lines 171-179: the verbose events section. -/
def eventsSection (state : JVal) : Except Err Unit := do
  let b ← pyInJ "events" state
  if b then do
    let ev ← osub state "events"
    let recent ← jgetD ev "recent" (.arr [])
    if truthy recent then do
      let last3 ← sliceLast 3 recent
      evtRows last3
    else pure ()
  else pure ()

/-- `check_alerts` as called from `display_state` with the raw decoded
value.  By line 182 the state is known to be a dict (its subscripts on
line 77 succeeded); a non-dict is the `TypeError` those subscripts raise. -/
def checkAlertsJ : JVal → Except Err (List Alert)
  | .obj o => check_alerts o
  | _ => .error .typeError

/-- `TelemetryMonitor.display_state` (lines 75-187), as the sequence of
fallible operations it performs on the decoded value, in source order.
The final update-rate print (lines 185-187) is pure arithmetic on the
stats counters, modelled separately by `updateRate`. -/
def display_state (verbose : Bool) (state : JVal) : Except Err Unit := do
  let tsv ← osub state "timestamp"
  let simt ← osub tsv "simulation_time"
  let sim1 ← osub state "simulation"
  let _status ← jgetD sim1 "status" (.str "unknown")
  let sim2 ← osub state "simulation"
  let prog ← jgetD sim2 "progress_percent" (.int 0)
  let _ ← asNum simt
  let _ ← asNum prog
  let cfg1 ← osub state "config"
  let _uec ← osub cfg1 "ue_count"
  let cfg2 ← osub state "config"
  let _gnc ← osub cfg2 "gnb_count"
  let topo ← osub state "topology"
  let uesv ← osub topo "ues"
  let ues ← iterElems uesv
  let _rows ← displayRows ues
  let _ ← trafficSummarySection state
  let _ ← if verbose then verboseTrafficSection state else pure ()
  let _ ← handoversSection verbose state
  let _ ← if verbose then eventsSection state else pure ()
  let _alerts ← checkAlertsJ state
  pure ()

/-! ## Ingestion and statistics (`TelemetryMonitor.process_packet`,
monitor_telemetry.py 59-73, and `TelemetryReceiver.run`,
monitor_telemetry_gui.py 38-50) -/

/-- The decode/processing counters of `TelemetryMonitor.stats`
(`last_update` and `start_time` carry no claim-relevant content). -/
structure Stats where
  received : Nat
  failed : Nat

/-- One incoming datagram, classified by the outcome of
`data.decode('utf-8')` and `json.loads`: bytes that are not UTF-8, text
that is not JSON, or a successfully parsed value. -/
inductive Packet where
  | badUtf8
  | badJson
  | good (v : JVal)

/-- `json.loads(data.decode('utf-8'))` as a whole. -/
def decode : Packet → Except Unit JVal
  | .badUtf8 => .error ()
  | .badJson => .error ()
  | .good v => .ok v

/-- `TelemetryMonitor.process_packet` (lines 59-73).  On a decode failure
only `packets_failed` is incremented.  On a successful parse
`packets_received` is incremented FIRST; if `display_state` then raises
(e.g. a required field is missing), the handler additionally increments
`packets_failed`. -/
def process_packet (verbose : Bool) (p : Packet) (s : Stats) : Stats :=
  match decode p with
  | .error _ => { s with failed := s.failed + 1 }
  | .ok v =>
      let s1 : Stats := { s with received := s.received + 1 }
      match display_state verbose v with
      | .error _ => { s1 with failed := s1.failed + 1 }
      | .ok _ => s1

/-- One iteration of `TelemetryReceiver.run` (monitor_telemetry_gui.py
41-50) acting on the single `latest_data` slot: a decode failure leaves
the slot untouched, a successful parse replaces it wholesale (under the
receiver's lock; no field validation happens here). -/
def receiverStep (p : Packet) (slot : Option JVal) : Option JVal :=
  match decode p with
  | .error _ => slot
  | .ok v => some v

/-- `self.latest_data = None` (monitor_telemetry_gui.py 34): the state of
the store before any publish. -/
def latestInit : Option JVal := none

/-- `publish`: `self.latest_data = decoded` under the lock — an atomic
whole-value replacement of the single slot. -/
def publish (_slot : Option JVal) (v : JVal) : Option JVal := some v

/-- `latest()`: the read of `self.receiver.latest_data` under the lock in
`TelemetryGUI._refresh` (lines 156-161).  `state` starts as `None` and is
assigned the stored value only when `if self.receiver.latest_data:` holds
— a TRUTHINESS test, not an `is None` check — so a falsy stored document
(the empty object, or JSON `null`) reads as nothing. -/
def latest (slot : Option JVal) : Option JVal :=
  match slot with
  | some v => if truthy v then some v else none
  | none => none

/-- A run of the producer: the publishes applied in arrival order. -/
def publishAll (slot : Option JVal) (vs : List JVal) : Option JVal :=
  vs.foldl publish slot

/-- Lines 243-246 of `print_final_stats`: the success-rate percentage is
computed and printed only when `packets_received > 0` (the guard is what
prevents a zero division); `none` models the omitted line. -/
def successRateLine (s : Stats) : Option ℚ :=
  if s.received > 0 then
    some (100 * (s.received : ℚ) / ((s.received : ℚ) + (s.failed : ℚ)))
  else none

/-- Lines 251-253 of `print_final_stats`: the average rate is printed only
when the elapsed time is positive. -/
def finalRateLine (received : Nat) (elapsed : ℚ) : Option ℚ :=
  if elapsed > 0 then some ((received : ℚ) / elapsed) else none

/-- Line 186 of `display_state`:
`rate = packets_received / elapsed if elapsed > 0 else 0`. -/
def updateRate (received : Nat) (elapsed : ℚ) : ℚ :=
  if elapsed > 0 then (received : ℚ) / elapsed else 0

/-! ## Entity resolver (`TelemetryGUI._refresh`, monitor_telemetry_gui.py 200-252)

The dashboard builds `gnb_map` (the spec's `build_gnb_index`) and resolves
each UE's serving gNB (the spec's `resolve_serving_gnb`) inline.  A Python
dict keyed by heterogeneous values is modelled as an association list where
an insert PREPENDS its entry and a lookup takes the FIRST entry whose key
is `==`-equal to the query: a later insert of an equal key shadows the
earlier one exactly as a dict overwrite does, so lookups and membership
tests agree with the dict. -/

/-- A gNB position tuple `(gx, gy)` as stored in `gnb_map` (the values of
`gnb['position']['x']` / `['y']`, kept as decoded). -/
abbrev Pos := JVal × JVal

/-- The `gnb_map` dict. -/
abbrev GnbMap := List (JVal × Pos)

/-- `gnb_map[k]` resp. `k in gnb_map`: first entry whose key is Python-equal
to the query. -/
def lookupMap (m : GnbMap) (k : JVal) : Option Pos :=
  (m.find? (fun e => pyEq k e.1)).map (·.2)

/-- `k in gnb_map`. -/
def containsMap (m : GnbMap) (k : JVal) : Bool :=
  (lookupMap m k).isSome

/-- Lines 209-212, one iteration of `for key_field in ('id', 'cell_id',
'gnb_id')`: when `gnb.get(key_field)` is not `None`, register the native
value and its `str()` form, both mapping to this gNB's position.  (The
native entry is written first, the `str` entry second, so the `str` entry
sits in front; both carry the same position.) -/
def insKeyField (g : Obj) (p : Pos) (m : GnbMap) (f : String) : GnbMap :=
  let v := ogetD g f .null
  if v.isNull then m
  else (JVal.str (pyStr v), p) :: (v, p) :: m

/-- Lines 208-212: the three candidate key fields, in source order. -/
def insGnbKeys (g : Obj) (p : Pos) (m : GnbMap) : GnbMap :=
  insKeyField g p (insKeyField g p (insKeyField g p m "id") "cell_id") "gnb_id"

/-- Line 206: `gnb['position']['x'], gnb['position']['y']` — unconditional
subscripts. -/
def gnbPos (gv : JVal) : Except Err Pos := do
  let p1 ← osub gv "position"
  let x ← osub p1 "x"
  let p2 ← osub gv "position"
  let y ← osub p2 "y"
  pure (x, y)

/-- Lines 205-212: process one gNB entity into the map.  The plotting and
label calls (lines 213-222) only draw and are omitted.  A non-dict element
raises at the `position` subscript already, so the fallback branch is
unreachable. -/
def insGnb (m : GnbMap) (gv : JVal) : Except Err GnbMap := do
  let p ← gnbPos gv
  match gv with
  | .obj o => pure (insGnbKeys o p m)
  | _ => .error .attrError

/-- The `for gnb in state['topology']['gnbs']` loop. -/
def buildGnbMap : GnbMap → List JVal → Except Err GnbMap
  | m, [] => .ok m
  | m, g :: gs => do
      let m' ← insGnb m g
      buildGnbMap m' gs

/-- The spec's `build_gnb_index`: lines 203-212 starting from the empty
`gnb_map = {}`. -/
def build_gnb_index (gnbs : List JVal) : Except Err GnbMap :=
  buildGnbMap [] gnbs

/-- Lines 235-241: the candidate-field cascade over the UE's `network`
dict.  Each step runs only when the previous left `None`; the check is an
explicit `is None` test, never truthiness, so `0` survives. -/
def resolveCandidate (net : Obj) : JVal :=
  let g0 := ogetD net "gnb_id" .null
  let g1 := if g0.isNull then ogetD net "serving_gnb" .null else g0
  let g2 := if g1.isNull then ogetD net "cell_id" .null else g1
  if g2.isNull then ogetD net "serving_cell_id" .null else g2

/-- The spec's `resolve_serving_gnb`, lines 235-248: pick the candidate,
retry with its `str()` form when the native key misses the index (line
243-244), and return the position found, or nothing when unresolved (no
line is drawn). -/
def resolve_serving_gnb (net : Obj) (m : GnbMap) : Option Pos :=
  let c0 := resolveCandidate net
  let c := if !containsMap m c0 && !c0.isNull then JVal.str (pyStr c0) else c0
  if !c.isNull && containsMap m c then lookupMap m c else none

/-- Lines 278-281 of `_refresh`: the GUI table's distance cell,
`net.get('distance_to_gnb') or 0` rendered with `:.1f` — `or` maps every
falsy value (`None` from an absent key, but also a present `0`) to `0`. -/
def guiDistance (net : JVal) : Except Err ℚ := do
  let d ← jgetD net "distance_to_gnb" .null
  let d2 := if truthy d then d else JVal.int 0
  asNum d2

/-! Helper predicates for reasoning about `gnb_map` registration. -/

/-- Query `k` hits one of the two entries field `f` of gNB dict `g`
registers. -/
def fieldMatch (g : Obj) (f : String) (k : JVal) : Bool :=
  let v := ogetD g f .null
  !v.isNull && (pyEq k (.str (pyStr v)) || pyEq k v)

/-- Query `k` hits one of the (up to six) entries gNB dict `g` registers. -/
def gnbMatches (g : Obj) (k : JVal) : Bool :=
  fieldMatch g "id" k || fieldMatch g "cell_id" k || fieldMatch g "gnb_id" k

/-- `gnbMatches` lifted to a raw gNB element. -/
def jmatches (gv : JVal) (k : JVal) : Bool :=
  match gv with
  | .obj o => gnbMatches o k
  | _ => false

/-- No gNB in `gs` registers an entry that the query `k` would hit: `k`'s
binding cannot be shadowed by processing `gs` afterwards.  (The snapshot
invariant that identifiers are unique guarantees this for distinct gNBs.) -/
def noShadowK (gs : List JVal) (k : JVal) : Bool :=
  gs.all (fun gv => !jmatches gv k)

/-! ## Shared lemmas -/

theorem except_bind_ok {ε α β : Type} (x : Except ε α) (f : α → Except ε β) (b : β) :
    (x >>= f) = .ok b ↔ ∃ a, x = .ok a ∧ f a = .ok b := by
  cases x with
  | error e => simp [Bind.bind, Except.bind]
  | ok a => simp [Bind.bind, Except.bind]

theorem except_bind_err {ε α β : Type} (x : Except ε α) (f : α → Except ε β)
    (h : ∀ a, x = .ok a → ∃ e, f a = .error e) : ∃ e, (x >>= f) = .error e := by
  cases x with
  | error e => exact ⟨e, rfl⟩
  | ok a => simpa using h a rfl

theorem pure_eq_ok {ε β : Type} (b : β) : (pure b : Except ε β) = .ok b := rfl

/-- `check_alerts` inverted: a successful evaluation is the three blocks in
order. -/
theorem check_alerts_inv (state : Obj) (l : List Alert)
    (h : check_alerts state = .ok l) :
    ∃ a1 a2 a3, trafficBlock state = .ok a1 ∧ ueBlock state = .ok a2 ∧
      gnbBlock state = .ok a3 ∧ l = a1 ++ a2 ++ a3 := by
  simp only [check_alerts, except_bind_ok, pure_eq_ok, Except.ok.injEq] at h
  obtain ⟨a1, h1, a2, h2, a3, h3, rfl⟩ := h
  exact ⟨a1, a2, a3, h1, h2, h3, rfl⟩

/-- Every alert a UE-loop body produces is a per-UE alert. -/
theorem ueAlerts_shape (u : JVal) (l : List Alert) (h : ueAlerts u = .ok l) :
    ∀ a ∈ l, isStationaryAlert a = true ∨ isSevereDlAlert a = true := by
  cases u with
  | obj o =>
    simp only [ueAlerts, except_bind_ok, pure_eq_ok, Except.ok.injEq] at h
    obtain ⟨uid, _, lp, hlp, rfl⟩ := h
    intro a ha
    rcases List.mem_append.1 ha with hs | hl
    · left
      simp only [ueStationaryList] at hs
      split at hs
      · split at hs
        · simp at hs; subst hs; rfl
        · simp at hs
      · simp at hs
    · right
      simp only [ueLossBlock] at hlp
      split at hlp
      · simp at hlp; subst hlp; simp at hl
      · simp only [except_bind_ok, pure_eq_ok, Except.ok.injEq] at hlp
        obtain ⟨dl, _, lpv, _, q, _, rfl⟩ := hlp
        split at hl
        · simp at hl; subst hl; rfl
        · simp at hl
  | null => simp [ueAlerts] at h
  | bool b => simp [ueAlerts] at h
  | int n => simp [ueAlerts] at h
  | float q => simp [ueAlerts] at h
  | str s => simp [ueAlerts] at h
  | arr xs => simp [ueAlerts] at h

/-- Every alert the UE loop produces is a per-UE alert. -/
theorem uesAlerts_shape : ∀ (us : List JVal) (l : List Alert),
    uesAlerts us = .ok l →
    ∀ a ∈ l, isStationaryAlert a = true ∨ isSevereDlAlert a = true := by
  intro us
  induction us with
  | nil => intro l h a ha; simp [uesAlerts] at h; subst h; simp at ha
  | cons u us ih =>
    intro l h a ha
    simp only [uesAlerts, except_bind_ok, pure_eq_ok, Except.ok.injEq] at h
    obtain ⟨a1, h1, a2, h2, rfl⟩ := h
    rcases List.mem_append.1 ha with h' | h'
    · exact ueAlerts_shape u a1 h1 a h'
    · exact ih a2 h2 a h'

/-- Every alert a cell-loop body produces is a per-cell alert. -/
theorem gnbAlert_shape (g : JVal) (l : List Alert) (h : gnbAlert g = .ok l) :
    ∀ a ∈ l, isCellAlert a = true := by
  cases g with
  | obj o =>
    simp only [gnbAlert, except_bind_ok, pure_eq_ok, Except.ok.injEq] at h
    obtain ⟨au, _, cnt, _, cid, _, q, _, rfl⟩ := h
    intro a ha
    split at ha
    · simp at ha; subst ha; rfl
    · split at ha
      · simp at ha; subst ha; rfl
      · simp at ha
  | null => simp [gnbAlert] at h
  | bool b => simp [gnbAlert] at h
  | int n => simp [gnbAlert] at h
  | float q => simp [gnbAlert] at h
  | str s => simp [gnbAlert] at h
  | arr xs => simp [gnbAlert] at h

/-- Every alert the cell loop produces is a per-cell alert. -/
theorem gnbsAlerts_shape : ∀ (gs : List JVal) (l : List Alert),
    gnbsAlerts gs = .ok l → ∀ a ∈ l, isCellAlert a = true := by
  intro gs
  induction gs with
  | nil => intro l h a ha; simp [gnbsAlerts] at h; subst h; simp at ha
  | cons g gs ih =>
    intro l h a ha
    simp only [gnbsAlerts, except_bind_ok, pure_eq_ok, Except.ok.injEq] at h
    obtain ⟨a1, h1, a2, h2, rfl⟩ := h
    rcases List.mem_append.1 ha with h' | h'
    · exact gnbAlert_shape g a1 h1 a h'
    · exact ih a2 h2 a h'

/-- Every alert the UE block produces is a per-UE alert. -/
theorem ueBlock_shape (state : Obj) (l : List Alert) (h : ueBlock state = .ok l) :
    ∀ a ∈ l, isStationaryAlert a = true ∨ isSevereDlAlert a = true := by
  simp only [ueBlock] at h
  split at h
  · simp at h; subst h; simp
  · simp only [except_bind_ok] at h
    obtain ⟨ues, _, ul, _, h2⟩ := h
    exact uesAlerts_shape ul l h2

/-- Every alert the cell block produces is a per-cell alert. -/
theorem gnbBlock_shape (state : Obj) (l : List Alert) (h : gnbBlock state = .ok l) :
    ∀ a ∈ l, isCellAlert a = true := by
  simp only [gnbBlock] at h
  split at h
  · simp at h; subst h; simp
  · simp only [except_bind_ok] at h
    obtain ⟨b, _, h2⟩ := h
    split at h2
    · simp only [except_bind_ok] at h2
      obtain ⟨gs, _, gl, _, h3⟩ := h2
      exact gnbsAlerts_shape gl l h3
    · simp only [pure_eq_ok, Except.ok.injEq] at h2; subst h2; simp

/-- Every alert the per-UE severe-loss check produces is a severe-DL-loss
alert. -/
theorem ueLossBlock_shape (o : Obj) (uid : JVal) (l : List Alert)
    (h : ueLossBlock o uid = .ok l) : ∀ a ∈ l, isSevereDlAlert a = true := by
  simp only [ueLossBlock] at h
  split at h
  · simp at h; subst h; simp
  · simp only [except_bind_ok, pure_eq_ok, Except.ok.injEq] at h
    obtain ⟨dl, _, lp, _, q, _, rfl⟩ := h
    intro a ha
    split at ha
    · simp at ha; subst ha; rfl
    · simp at ha

/-- `trafficBlock` evaluated on a snapshot that carries a numeric average
loss. -/
theorem trafficBlock_eval (state : Obj) (ts lv : JVal) (q : ℚ)
    (hts : lookupO state "traffic_summary" = some ts)
    (hlv : osub ts "avg_packet_loss_percent" = .ok lv)
    (hq : asNum lv = .ok q) :
    trafficBlock state = .ok (trafficAlertList q) := by
  simp [trafficBlock, hts, hlv, hq, Bind.bind, Except.bind, pure, Except.pure]

theorem trafficAlertList_counts (q : ℚ) :
    (trafficAlertList q).countP isHighAlert = (if 50 < q then 1 else 0) ∧
    (trafficAlertList q).countP isElevatedAlert =
      (if 30 < q ∧ ¬ 50 < q then 1 else 0) := by
  unfold trafficAlertList
  by_cases h50 : 50 < q
  · simp [h50, List.countP, List.countP.go, isHighAlert, isElevatedAlert]
  · by_cases h30 : 30 < q
    · simp [h50, h30, List.countP, List.countP.go, isHighAlert, isElevatedAlert]
    · simp [h50, h30, List.countP, List.countP.go]

/-- C4: for every snapshot carrying a traffic summary with a numeric
average loss `q` on which alert evaluation succeeds, the comparison is
strict: a "high" alert is produced exactly when `q > 50` (so exactly `50`
produces none), and exactly one medium elevated-loss alert is produced
when `q > 30` but not already high. -/
theorem claim_C4 (state : Obj) (ts lv : JVal) (q : ℚ) (alerts : List Alert)
    (halerts : check_alerts state = .ok alerts)
    (hts : lookupO state "traffic_summary" = some ts)
    (hlv : osub ts "avg_packet_loss_percent" = .ok lv)
    (hq : asNum lv = .ok q) :
    alerts.countP isHighAlert = (if 50 < q then 1 else 0) ∧
    alerts.countP isElevatedAlert = (if 30 < q ∧ ¬ 50 < q then 1 else 0) := by
  obtain ⟨a1, a2, a3, h1, h2, h3, rfl⟩ := check_alerts_inv state alerts halerts
  rw [trafficBlock_eval state ts lv q hts hlv hq] at h1
  injection h1 with h1
  subst h1
  have hc2h : a2.countP isHighAlert = 0 := by
    refine List.countP_eq_zero.2 (fun a ha => ?_)
    rcases ueBlock_shape state a2 h2 a ha with h | h <;>
      cases a <;> simp_all [isStationaryAlert, isSevereDlAlert, isHighAlert]
  have hc3h : a3.countP isHighAlert = 0 := by
    refine List.countP_eq_zero.2 (fun a ha => ?_)
    have h := gnbBlock_shape state a3 h3 a ha
    cases a <;> simp_all [isCellAlert, isHighAlert]
  have hc2e : a2.countP isElevatedAlert = 0 := by
    refine List.countP_eq_zero.2 (fun a ha => ?_)
    rcases ueBlock_shape state a2 h2 a ha with h | h <;>
      cases a <;> simp_all [isStationaryAlert, isSevereDlAlert, isElevatedAlert]
  have hc3e : a3.countP isElevatedAlert = 0 := by
    refine List.countP_eq_zero.2 (fun a ha => ?_)
    have h := gnbBlock_shape state a3 h3 a ha
    cases a <;> simp_all [isCellAlert, isElevatedAlert]
  obtain ⟨ch, ce⟩ := trafficAlertList_counts q
  constructor
  · rw [List.countP_append, List.countP_append, hc2h, hc3h, ch]; simp
  · rw [List.countP_append, List.countP_append, hc2e, hc3e, ce]; simp

/-- A snapshot whose average packet loss is exactly 50 (percent). -/
def snapLoss50 : Obj := [("traffic_summary", .obj [("avg_packet_loss_percent", .int 50)])]

/-- A snapshot whose average packet loss is 50.1 (percent). -/
def snapLoss501 : Obj :=
  [("traffic_summary", .obj [("avg_packet_loss_percent", .float (mkRat 501 10))])]

/-- Witness for C4 at loss exactly 50 (no high alert, one elevated) and at
loss 50.1 (exactly one high alert, no elevated). -/
theorem claim_C4_witness :
    (∃ l, check_alerts snapLoss50 = .ok l ∧
      l.countP isHighAlert = 0 ∧ l.countP isElevatedAlert = 1) ∧
    (∃ l, check_alerts snapLoss501 = .ok l ∧
      l.countP isHighAlert = 1 ∧ l.countP isElevatedAlert = 0) := by
  constructor
  · refine ⟨[.elevatedLoss 50], rfl, ?_, ?_⟩
    · have := (claim_C4 snapLoss50 (.obj [("avg_packet_loss_percent", .int 50)])
        (.int 50) 50 [.elevatedLoss 50] rfl rfl rfl rfl).1
      rw [this]; decide
    · have := (claim_C4 snapLoss50 (.obj [("avg_packet_loss_percent", .int 50)])
        (.int 50) 50 [.elevatedLoss 50] rfl rfl rfl rfl).2
      rw [this]; decide
  · refine ⟨[.highLoss (mkRat 501 10)], rfl, ?_, ?_⟩
    · have := (claim_C4 snapLoss501
        (.obj [("avg_packet_loss_percent", .float (mkRat 501 10))])
        (.float (mkRat 501 10)) (mkRat 501 10) [.highLoss (mkRat 501 10)]
        rfl rfl rfl rfl).1
      rw [this]; decide
    · have := (claim_C4 snapLoss501
        (.obj [("avg_packet_loss_percent", .float (mkRat 501 10))])
        (.float (mkRat 501 10)) (mkRat 501 10) [.highLoss (mkRat 501 10)]
        rfl rfl rfl rfl).2
      rw [this]; decide

/-- A UE with an explicit `speed` of `0` and `mobility_model` `"waypoint"`
but no `velocity` key. -/
def ueStuckNoVel : Obj :=
  [("id", .int 1), ("speed", .int 0), ("mobility_model", .str "waypoint")]

/-- A snapshot containing only `ueStuckNoVel`. -/
def snapStuckNoVel : Obj := [("topology", .obj [("ues", .arr [.obj ueStuckNoVel])])]

/-- Counterexample to C7 as stated: this UE's speed equals 0 and its
mobility model equals "waypoint", yet alert evaluation emits no alert at
all — the stationary check is guarded by `if 'velocity' in ue:` (line 207)
and the UE carries no `velocity` key. -/
theorem claim_C7_counterexample :
    lookupO ueStuckNoVel "speed" = some (.int 0) ∧
    lookupO ueStuckNoVel "mobility_model" = some (.str "waypoint") ∧
    check_alerts snapStuckNoVel = .ok [] := ⟨rfl, rfl, rfl⟩

/-- C7 amended: the stationary alert for a UE is emitted exactly when the
UE carries a `velocity` key AND its `speed` (defaulting to `0` when
absent) equals `0` AND its `mobility_model` (defaulting to `""` when
absent) equals `"waypoint"`. -/
theorem claim_C7 (o : Obj) (uid : JVal) (l : List Alert)
    (hid : lookupO o "id" = some uid)
    (h : ueAlerts (.obj o) = .ok l) :
    Alert.stationary uid ∈ l ↔
      (containsO o "velocity" = true ∧
       pyEq (ogetD o "speed" (.int 0)) (.int 0) = true ∧
       pyEq (ogetD o "mobility_model" (.str "")) (.str "waypoint") = true) := by
  simp only [ueAlerts, osub, hid, except_bind_ok, pure_eq_ok, Except.ok.injEq] at h
  obtain ⟨uid', huid, lp, hlp, rfl⟩ := h
  subst huid
  have hnl : Alert.stationary uid ∉ lp := by
    intro hm
    have := ueLossBlock_shape o uid lp hlp (Alert.stationary uid) hm
    simp [isSevereDlAlert] at this
  constructor
  · intro hm
    rcases List.mem_append.1 hm with hs | hl
    · simp only [ueStationaryList] at hs
      split at hs
      · rename_i hv
        split at hs
        · rename_i hcond
          rw [Bool.and_eq_true] at hcond
          exact ⟨hv, hcond.1, hcond.2⟩
        · simp at hs
      · simp at hs
    · exact absurd hl hnl
  · rintro ⟨hv, hs, hm⟩
    refine List.mem_append.2 (Or.inl ?_)
    simp [ueStationaryList, hv, hs, hm]

/-- Witness for the amended C7: a UE with a `velocity` key, implicit zero
speed and waypoint mobility gets the stationary alert. -/
theorem claim_C7_witness :
    Alert.stationary (.int 3) ∈ [Alert.stationary (.int 3)] := by
  have h := claim_C7
    [("id", .int 3), ("velocity", .obj []), ("mobility_model", .str "waypoint")]
    (.int 3) [Alert.stationary (.int 3)] rfl rfl
  exact h.2 ⟨rfl, rfl, rfl⟩

/-- Three cells: attached-UE counts 9 (overloaded), 0 (idle) and 5
(neither). -/
def snapCells : Obj :=
  [("topology", .obj [("ues", .arr []),
    ("gnbs", .arr
      [.obj [("cell_id", .int 1), ("attached_ues", .obj [("count", .int 9)])],
       .obj [("cell_id", .int 2), ("attached_ues", .obj [("count", .int 0)])],
       .obj [("cell_id", .int 3), ("attached_ues", .obj [("count", .int 5)])]])])]

/-- A snapshot whose single gNB lacks the (per the data model optional)
`attached_ues` field. -/
def snapCellNoCount : Obj :=
  [("topology", .obj [("ues", .arr []),
    ("gnbs", .arr [.obj [("cell_id", .int 1),
      ("position", .obj [("x", .int 0), ("y", .int 0)])]])])]

/-- A complete, otherwise valid snapshot whose single gNB lacks
`attached_ues`. -/
def fullSnapNoCount : JVal := .obj
  [("timestamp", .obj [("simulation_time", .int 1)]),
   ("simulation", .obj [("status", .str "running")]),
   ("config", .obj [("ue_count", .int 0), ("gnb_count", .int 1)]),
   ("topology", .obj [("ues", .arr []),
     ("gnbs", .arr [.obj [("cell_id", .int 1),
       ("position", .obj [("x", .int 0), ("y", .int 0)])]])])]

/-- C8: the threshold half of the claim holds — a count of 9 (> 8) yields
the overloaded alert, a count of 0 yields the idle alert, a count of 5
yields none — but the safety half fails: for a gNB without the optional
`attached_ues.count` field, `check_alerts` does not complete; the
unconditional subscript `gnb['attached_ues']['count']` (line 222) raises
`KeyError`, so the otherwise valid packet is counted both received and
failed. -/
theorem claim_C8 :
    check_alerts snapCells =
      .ok [.overloaded (.int 1) (.int 9), .noUes (.int 2)] ∧
    check_alerts snapCellNoCount = .error (.keyError "attached_ues") ∧
    process_packet false (.good fullSnapNoCount) ⟨0, 0⟩ = ⟨1, 1⟩ :=
  ⟨rfl, rfl, rfl⟩

/-- C10: alert evaluation is a pure function of the snapshot and its
output order is fixed: the traffic-summary block (at most one network-wide
loss alert) comes first, then the per-UE loop in `topology.ues` order
(within one UE the stationary alert precedes the severe-DL-loss alert),
then the per-cell loop in `topology.gnbs` order (only cell alerts). -/
theorem claim_C10 :
    (∀ (state : Obj) (a1 a2 a3 : List Alert),
       trafficBlock state = .ok a1 → ueBlock state = .ok a2 →
       gnbBlock state = .ok a3 → check_alerts state = .ok (a1 ++ a2 ++ a3)) ∧
    (∀ (state : Obj) (l : List Alert), trafficBlock state = .ok l →
       l.length ≤ 1 ∧ ∀ a ∈ l, isHighAlert a = true ∨ isElevatedAlert a = true) ∧
    (∀ (u : JVal) (us : List JVal) (a r : List Alert),
       ueAlerts u = .ok a → uesAlerts us = .ok r →
       uesAlerts (u :: us) = .ok (a ++ r)) ∧
    (∀ (o : Obj) (uid : JVal) (lp : List Alert),
       lookupO o "id" = some uid → ueLossBlock o uid = .ok lp →
       ueAlerts (.obj o) = .ok (ueStationaryList o uid ++ lp)) ∧
    (∀ (g : JVal) (gs : List JVal) (a r : List Alert),
       gnbAlert g = .ok a → gnbsAlerts gs = .ok r →
       gnbsAlerts (g :: gs) = .ok (a ++ r)) ∧
    (∀ (state : Obj) (l : List Alert), ueBlock state = .ok l →
       ∀ a ∈ l, isStationaryAlert a = true ∨ isSevereDlAlert a = true) ∧
    (∀ (state : Obj) (l : List Alert), gnbBlock state = .ok l →
       ∀ a ∈ l, isCellAlert a = true) := by
  refine ⟨?_, ?_, ?_, ?_, ?_, ueBlock_shape, gnbBlock_shape⟩
  · intro state a1 a2 a3 h1 h2 h3
    simp [check_alerts, h1, h2, h3, Bind.bind, Except.bind, pure, Except.pure]
  · intro state l h
    simp only [trafficBlock] at h
    split at h
    · simp at h; subst h; simp
    · simp only [except_bind_ok, pure_eq_ok, Except.ok.injEq] at h
      obtain ⟨lv, _, q, _, rfl⟩ := h
      unfold trafficAlertList
      by_cases h50 : 50 < q
      · simp [h50, isHighAlert]
      · by_cases h30 : 30 < q
        · simp [h50, h30, isElevatedAlert]
        · simp [h50, h30]
  · intro u us a r h1 h2
    simp [uesAlerts, h1, h2, Bind.bind, Except.bind, pure, Except.pure]
  · intro o uid lp hid hlb
    simp [ueAlerts, osub, hid, hlb, Bind.bind, Except.bind, pure, Except.pure]
  · intro g gs a r h1 h2
    simp [gnbsAlerts, h1, h2, Bind.bind, Except.bind, pure, Except.pure]

/-- A snapshot that fires one alert of every kind. -/
def snapAllAlerts : Obj :=
  [("traffic_summary", .obj [("avg_packet_loss_percent", .int 40)]),
   ("topology", .obj
     [("ues", .arr
       [.obj [("id", .int 1), ("velocity", .obj []),
              ("mobility_model", .str "waypoint"),
              ("traffic", .obj [("dl", .obj [("loss_percent", .int 90)])])],
        .obj [("id", .int 2)]]),
      ("gnbs", .arr
        [.obj [("cell_id", .int 7), ("attached_ues", .obj [("count", .int 9)])],
         .obj [("cell_id", .int 8), ("attached_ues", .obj [("count", .int 0)])]])])]

/-- Witness for C10: on `snapAllAlerts` the blocks evaluate separately to
the elevated-loss alert, the per-UE alerts in UE order (stationary before
severe loss), and the per-cell alerts in gNB order, and `check_alerts`
returns exactly their ordered concatenation. -/
theorem claim_C10_witness :
    trafficBlock snapAllAlerts = .ok [.elevatedLoss 40] ∧
    ueBlock snapAllAlerts =
      .ok [.stationary (.int 1), .severeDlLoss (.int 1) 90] ∧
    gnbBlock snapAllAlerts =
      .ok [.overloaded (.int 7) (.int 9), .noUes (.int 8)] ∧
    check_alerts snapAllAlerts =
      .ok ([.elevatedLoss 40] ++
           [.stationary (.int 1), .severeDlLoss (.int 1) 90] ++
           [.overloaded (.int 7) (.int 9), .noUes (.int 8)]) :=
  ⟨rfl, rfl, rfl, claim_C10.1 snapAllAlerts _ _ _ rfl rfl rfl⟩

/-- C1: the candidate is the first of `gnb_id`, `serving_gnb`, `cell_id`,
`serving_cell_id` that is present and non-null in the UE's `network` dict
(presence decided by the explicit null check, never truthiness); in
particular a `gnb_id` of `0` is the candidate — resolution then looks up
the key `0` (retrying as `"0"`), and never falls through to the remaining
fields. -/
theorem claim_C1 (net : Obj) :
    (resolveCandidate net =
      (if (ogetD net "gnb_id" .null).isNull
       then if (ogetD net "serving_gnb" .null).isNull
            then if (ogetD net "cell_id" .null).isNull
                 then ogetD net "serving_cell_id" .null
                 else ogetD net "cell_id" .null
            else ogetD net "serving_gnb" .null
       else ogetD net "gnb_id" .null)) ∧
    (ogetD net "gnb_id" .null = .int 0 →
      resolveCandidate net = .int 0 ∧
      ∀ m : GnbMap, resolve_serving_gnb net m =
        (if containsMap m (.int 0) then lookupMap m (.int 0)
         else lookupMap m (.str "0"))) := by
  constructor
  · unfold resolveCandidate
    by_cases h0 : (ogetD net "gnb_id" .null).isNull <;>
      by_cases h1 : (ogetD net "serving_gnb" .null).isNull <;>
        by_cases h2 : (ogetD net "cell_id" .null).isNull <;>
          simp [h0, h1, h2]
  · intro h
    have hc : resolveCandidate net = .int 0 := by
      unfold resolveCandidate
      rw [h]
      simp [JVal.isNull]
    refine ⟨hc, fun m => ?_⟩
    unfold resolve_serving_gnb
    rw [hc]
    by_cases hin : containsMap m (.int 0)
    · simp [hin, JVal.isNull]
    · have hb : (lookupMap m (.int 0)).isSome = false := by
        revert hin; simp only [containsMap]
        cases (lookupMap m (.int 0)).isSome <;> simp
      have hpy : pyStr (.int 0) = "0" := rfl
      cases hl : lookupMap m (.str "0") with
      | none => simp [hb, hpy, hl, JVal.isNull, containsMap]
      | some p => simp [hb, hpy, hl, JVal.isNull, containsMap]

/-- The UE-side `network` dict of the explicit-zero check: `gnb_id = 0`
with a `cell_id` fallback present. -/
def netZeroGnb : Obj := [("gnb_id", .int 0), ("cell_id", .int 7)]

/-- An index that knows key `7` but not `0`. -/
def mapSeven : GnbMap := [(.int 7, (.int 1, .int 2))]

/-- Witness for C1: with `gnb_id = 0` the candidate is `0`; resolution
looks up `0` (and `"0"`), and does NOT fall through to `cell_id = 7` even
though `7` is in the index — the UE stays unresolved. -/
theorem claim_C1_witness :
    resolveCandidate netZeroGnb = .int 0 ∧
    resolve_serving_gnb netZeroGnb mapSeven = none := by
  have h := (claim_C1 netZeroGnb).2 rfl
  refine ⟨h.1, ?_⟩
  rw [h.2 mapSeven]
  rfl

theorem lookupMap_insKeyField (g : Obj) (p : Pos) (m : GnbMap) (f : String) (k : JVal) :
    lookupMap (insKeyField g p m f) k =
      if fieldMatch g f k then some p else lookupMap m k := by
  unfold insKeyField fieldMatch
  cases hn : (ogetD g f .null).isNull
  · cases h1 : pyEq k (.str (pyStr (ogetD g f .null))) <;>
      cases h2 : pyEq k (ogetD g f .null) <;>
        simp [lookupMap, List.find?, hn, h1, h2]
  · simp [hn]

theorem lookupMap_insGnbKeys (g : Obj) (p : Pos) (m : GnbMap) (k : JVal) :
    lookupMap (insGnbKeys g p m) k =
      if gnbMatches g k then some p else lookupMap m k := by
  unfold insGnbKeys gnbMatches
  rw [lookupMap_insKeyField, lookupMap_insKeyField, lookupMap_insKeyField]
  cases h1 : fieldMatch g "id" k <;> cases h2 : fieldMatch g "cell_id" k <;>
    cases h3 : fieldMatch g "gnb_id" k <;> simp [h1, h2, h3]

theorem insGnb_inv (m m' : GnbMap) (gv : JVal) (h : insGnb m gv = .ok m') :
    ∃ o p, gv = .obj o ∧ gnbPos gv = .ok p ∧ m' = insGnbKeys o p m := by
  cases gv with
  | obj o =>
    simp only [insGnb, except_bind_ok, pure_eq_ok, Except.ok.injEq] at h
    obtain ⟨p, hp, rfl⟩ := h
    exact ⟨o, p, rfl, hp, rfl⟩
  | null =>
    simp only [insGnb, except_bind_ok] at h
    obtain ⟨p, hp, h⟩ := h
    simp [gnbPos, osub, Bind.bind, Except.bind] at hp
  | bool b =>
    simp only [insGnb, except_bind_ok] at h
    obtain ⟨p, hp, h⟩ := h
    simp [gnbPos, osub, Bind.bind, Except.bind] at hp
  | int n =>
    simp only [insGnb, except_bind_ok] at h
    obtain ⟨p, hp, h⟩ := h
    simp [gnbPos, osub, Bind.bind, Except.bind] at hp
  | float q =>
    simp only [insGnb, except_bind_ok] at h
    obtain ⟨p, hp, h⟩ := h
    simp [gnbPos, osub, Bind.bind, Except.bind] at hp
  | str s =>
    simp only [insGnb, except_bind_ok] at h
    obtain ⟨p, hp, h⟩ := h
    simp [gnbPos, osub, Bind.bind, Except.bind] at hp
  | arr xs =>
    simp only [insGnb, except_bind_ok] at h
    obtain ⟨p, hp, h⟩ := h
    simp [gnbPos, osub, Bind.bind, Except.bind] at hp

/-- Processing gNBs none of which registers a key that the query would hit
leaves the query's binding unchanged. -/
theorem buildGnbMap_noShadow : ∀ (gs : List JVal) (m m' : GnbMap) (k : JVal),
    buildGnbMap m gs = .ok m' → noShadowK gs k = true →
    lookupMap m' k = lookupMap m k := by
  intro gs
  induction gs with
  | nil =>
    intro m m' k h _
    simp only [buildGnbMap, Except.ok.injEq] at h
    subst h; rfl
  | cons g gs ih =>
    intro m m' k h hsh
    simp only [buildGnbMap, except_bind_ok] at h
    obtain ⟨m1, h1, h2⟩ := h
    simp only [noShadowK, List.all_cons, Bool.and_eq_true] at hsh
    obtain ⟨o, p, rfl, _, rfl⟩ := insGnb_inv m m1 g h1
    have hm : gnbMatches o k = false := by
      have := hsh.1
      simp only [jmatches, Bool.not_eq_true'] at this
      exact this
    rw [ih _ _ k h2 hsh.2, lookupMap_insGnbKeys, hm]
    simp

/-- A successful build over a concatenation splits at the seam. -/
theorem buildGnbMap_append_inv : ∀ (pre rest : List JVal) (m m' : GnbMap),
    buildGnbMap m (pre ++ rest) = .ok m' →
    ∃ mp, buildGnbMap m pre = .ok mp ∧ buildGnbMap mp rest = .ok m' := by
  intro pre
  induction pre with
  | nil => intro rest m m' h; exact ⟨m, rfl, h⟩
  | cons g pre ih =>
    intro rest m m' h
    simp only [List.cons_append, buildGnbMap, except_bind_ok] at h ⊢
    obtain ⟨m1, h1, h2⟩ := h
    obtain ⟨mp, hp1, hp2⟩ := ih rest m1 m' h2
    exact ⟨mp, ⟨m1, h1, hp1⟩, hp2⟩

/-- C2: in the index built from the gNB list, a gNB dict `o` (whose
position tuple is `p`) is reachable under both the native value and the
`str()` form of each of its `id`, `cell_id`, `gnb_id` fields that is
present and non-null, provided no later gNB re-registers that key (the
snapshot invariant of unique identifiers); consequently a UE whose
`network.cell_id` is the string form of an integer `cell_id` `X` of that
gNB resolves to that gNB's position. -/
theorem claim_C2 (pre suf : List JVal) (o : Obj) (p : Pos) (m : GnbMap)
    (hbuild : build_gnb_index (pre ++ .obj o :: suf) = .ok m)
    (hpos : gnbPos (.obj o) = .ok p) :
    (∀ f v, (f = "id" ∨ f = "cell_id" ∨ f = "gnb_id") →
       ogetD o f .null = v → v.isNull = false →
       (noShadowK suf v = true → lookupMap m v = some p) ∧
       (noShadowK suf (.str (pyStr v)) = true →
          lookupMap m (.str (pyStr v)) = some p)) ∧
    (∀ (X : Int) (net : Obj),
       ogetD o "cell_id" .null = .int X →
       ogetD net "gnb_id" .null = .null →
       ogetD net "serving_gnb" .null = .null →
       ogetD net "cell_id" .null = .str (toString X) →
       noShadowK suf (.str (toString X)) = true →
       resolve_serving_gnb net m = some p) := by
  obtain ⟨mp, _, hrest⟩ :=
    buildGnbMap_append_inv pre (.obj o :: suf) [] m hbuild
  simp only [buildGnbMap, except_bind_ok] at hrest
  obtain ⟨m1, hg, hsuf⟩ := hrest
  obtain ⟨o', p', ho', hp', rfl⟩ := insGnb_inv mp m1 (.obj o) hg
  injection ho' with h
  subst h
  rw [hpos] at hp'
  injection hp' with hp'
  subst hp'
  have key : ∀ f v, (f = "id" ∨ f = "cell_id" ∨ f = "gnb_id") →
      ogetD o f .null = v → v.isNull = false →
      ∀ k, pyEq k v = true ∨ pyEq k (.str (pyStr v)) = true →
      noShadowK suf k = true → lookupMap m k = some p := by
    intro f v hf hv hnn k hk hsh
    rw [buildGnbMap_noShadow suf _ m k hsuf hsh, lookupMap_insGnbKeys]
    have hfm : fieldMatch o f k = true := by
      simp only [fieldMatch, hv]
      rcases hk with hk | hk <;> simp [hnn, hk]
    have : gnbMatches o k = true := by
      unfold gnbMatches
      rcases hf with rfl | rfl | rfl <;> simp [hfm]
    rw [this]
    simp
  constructor
  · intro f v hf hv hnn
    constructor
    · exact fun hsh => key f v hf hv hnn v (Or.inl (pyEq_refl v)) hsh
    · exact fun hsh =>
        key f v hf hv hnn (.str (pyStr v))
          (Or.inr (pyEq_refl (.str (pyStr v)))) hsh
  · intro X net hcell hn1 hn2 hn3 hsh
    have hlook : lookupMap m (.str (toString X)) = some p := by
      have := key "cell_id" (.int X) (Or.inr (Or.inl rfl)) hcell rfl
        (.str (toString X))
        (Or.inr (by simp [pyStr, pyEq_refl])) hsh
      exact this
    have hcand : resolveCandidate net = .str (toString X) := by
      unfold resolveCandidate
      rw [hn1, hn2, hn3]
      simp [JVal.isNull]
    unfold resolve_serving_gnb
    rw [hcand]
    have hcm : containsMap m (.str (toString X)) = true := by
      simp [containsMap, hlook]
    simp [hcm, JVal.isNull, hlook]

/-- The gNB of the C2 witness: integer `cell_id` 5 at position (10, 20). -/
def gnbCell5 : Obj :=
  [("cell_id", .int 5), ("position", .obj [("x", .int 10), ("y", .int 20)])]

/-- The index built from `gnbCell5` alone. -/
def idxCell5 : GnbMap :=
  [(.str "5", (.int 10, .int 20)), (.int 5, (.int 10, .int 20))]

/-- Witness for C2: the single-gNB index binds both `5` and `"5"` to the
gNB's position, and a UE whose `network.cell_id` is the string `"5"`
resolves to it. -/
theorem claim_C2_witness :
    build_gnb_index [.obj gnbCell5] = .ok idxCell5 ∧
    lookupMap idxCell5 (.int 5) = some (.int 10, .int 20) ∧
    lookupMap idxCell5 (.str "5") = some (.int 10, .int 20) ∧
    resolve_serving_gnb [("cell_id", .str "5")] idxCell5 =
      some (.int 10, .int 20) := by
  have h := claim_C2 [] [] gnbCell5 (.int 10, .int 20) idxCell5 rfl rfl
  refine ⟨rfl, ?_, ?_, ?_⟩
  · exact (h.1 "cell_id" (.int 5) (Or.inr (Or.inl rfl)) rfl rfl).1 rfl
  · exact (h.1 "cell_id" (.int 5) (Or.inr (Or.inl rfl)) rfl rfl).2 rfl
  · exact h.2 5 [("cell_id", .str "5")] rfl rfl rfl rfl rfl

/-- The document is missing one of the required fields
`timestamp.simulation_time`, `simulation`, `config`, `topology.ues`. -/
def missingReq (s : Obj) : Prop :=
  lookupO s "timestamp" = none ∨
  (∃ t : Obj, lookupO s "timestamp" = some (.obj t) ∧
     lookupO t "simulation_time" = none) ∨
  lookupO s "simulation" = none ∨
  lookupO s "config" = none ∨
  lookupO s "topology" = none ∨
  (∃ t : Obj, lookupO s "topology" = some (.obj t) ∧ lookupO t "ues" = none)

/-- A document missing a required field makes `display_state` raise. -/
theorem display_state_missing_err (vb : Bool) (s : Obj) (h : missingReq s) :
    ∃ e, display_state vb (.obj s) = .error e := by
  simp only [display_state]
  rcases h with h | ⟨t, ht, h⟩ | h | h | h | ⟨t, ht, h⟩
  · exact ⟨.keyError "timestamp", by simp [osub, h, Bind.bind, Except.bind]⟩
  · apply except_bind_err; intro tsv h1
    have htv : tsv = .obj t := by
      simp [osub, ht] at h1; exact h1.symm
    subst htv
    exact ⟨.keyError "simulation_time", by simp [osub, h, Bind.bind, Except.bind]⟩
  · apply except_bind_err; intro tsv _
    apply except_bind_err; intro simt _
    exact ⟨.keyError "simulation", by simp [osub, h, Bind.bind, Except.bind]⟩
  · apply except_bind_err; intro tsv _
    apply except_bind_err; intro simt _
    apply except_bind_err; intro sim1 _
    apply except_bind_err; intro st _
    apply except_bind_err; intro sim2 _
    apply except_bind_err; intro prog _
    apply except_bind_err; intro n1 _
    apply except_bind_err; intro n2 _
    exact ⟨.keyError "config", by simp [osub, h, Bind.bind, Except.bind]⟩
  · apply except_bind_err; intro tsv _
    apply except_bind_err; intro simt _
    apply except_bind_err; intro sim1 _
    apply except_bind_err; intro st _
    apply except_bind_err; intro sim2 _
    apply except_bind_err; intro prog _
    apply except_bind_err; intro n1 _
    apply except_bind_err; intro n2 _
    apply except_bind_err; intro cfg1 _
    apply except_bind_err; intro uec _
    apply except_bind_err; intro cfg2 _
    apply except_bind_err; intro gnc _
    exact ⟨.keyError "topology", by simp [osub, h, Bind.bind, Except.bind]⟩
  · apply except_bind_err; intro tsv _
    apply except_bind_err; intro simt _
    apply except_bind_err; intro sim1 _
    apply except_bind_err; intro st _
    apply except_bind_err; intro sim2 _
    apply except_bind_err; intro prog _
    apply except_bind_err; intro n1 _
    apply except_bind_err; intro n2 _
    apply except_bind_err; intro cfg1 _
    apply except_bind_err; intro uec _
    apply except_bind_err; intro cfg2 _
    apply except_bind_err; intro gnc _
    apply except_bind_err; intro topo h13
    have htv : topo = .obj t := by
      simp [osub, ht] at h13; exact h13.symm
    subst htv
    exact ⟨.keyError "ues", by simp [osub, h, Bind.bind, Except.bind]⟩

/-- A valid-JSON document that is missing the required `timestamp` field
(everything else present). -/
def snapNoTimestamp : JVal := .obj
  [("simulation", .obj [("status", .str "running"), ("progress_percent", .int 10)]),
   ("config", .obj [("ue_count", .int 1), ("gnb_count", .int 1)]),
   ("topology", .obj [("ues", .arr []), ("gnbs", .arr [])])]

/-- A previously published (valid) snapshot. -/
def prevSnap : JVal := .obj [("timestamp", .obj [("simulation_time", .int 0)])]

/-- Counterexample to C3 as stated: on a validation error (valid JSON
missing the required `timestamp` field) the received counter is NOT
unchanged — `packets_received` is incremented before validation, so both
counters go up; and the GUI receiver, which performs no validation,
replaces the stored snapshot with the invalid document instead of leaving
it untouched. -/
theorem claim_C3_counterexample :
    process_packet false (.good snapNoTimestamp) ⟨0, 0⟩ = ⟨1, 1⟩ ∧
    (process_packet false (.good snapNoTimestamp) ⟨0, 0⟩).received ≠ 0 ∧
    receiverStep (.good snapNoTimestamp) (some prevSnap) = some snapNoTimestamp :=
  ⟨rfl, by decide, rfl⟩

/-- C3 amended: for bytes that are not UTF-8 or text that is not JSON the
failed counter is incremented by 1, the received counter is unchanged and
the receiver's stored snapshot is left untouched; for a successfully
parsed document missing a required top-level field the failed counter is
incremented by 1 but the received counter is ALSO incremented by 1 (the
increment precedes validation), and the GUI receiver publishes the
document unvalidated. -/
theorem claim_C3 :
    (∀ (vb : Bool) (s : Stats),
       process_packet vb .badUtf8 s = { s with failed := s.failed + 1 } ∧
       process_packet vb .badJson s = { s with failed := s.failed + 1 }) ∧
    (∀ slot, receiverStep .badUtf8 slot = slot ∧
       receiverStep .badJson slot = slot) ∧
    (∀ (vb : Bool) (s : Stats) (o : Obj), missingReq o →
       process_packet vb (.good (.obj o)) s =
         ⟨s.received + 1, s.failed + 1⟩) ∧
    (∀ slot v, receiverStep (.good v) slot = some v) := by
  refine ⟨fun vb s => ⟨rfl, rfl⟩, fun slot => ⟨rfl, rfl⟩, ?_, fun slot v => rfl⟩
  intro vb s o h
  obtain ⟨e, he⟩ := display_state_missing_err vb o h
  simp [process_packet, decode, he]

/-- Witness for the amended C3: a malformed datagram bumps only `failed`;
an empty JSON object (missing every required field) bumps both counters. -/
theorem claim_C3_witness :
    process_packet false .badUtf8 ⟨7, 2⟩ = ⟨7, 3⟩ ∧
    receiverStep .badJson (some (.int 1)) = some (.int 1) ∧
    process_packet false (.good (.obj [])) ⟨7, 2⟩ = ⟨8, 3⟩ := by
  refine ⟨?_, ?_, ?_⟩
  · exact (claim_C3.1 false ⟨7, 2⟩).1
  · exact (claim_C3.2.1 (some (.int 1))).2
  · exact claim_C3.2.2.1 false ⟨7, 2⟩ [] (Or.inl rfl)

/-- The slot after any run of publishes holds the last published value (or
the untouched initial content). -/
theorem publishAll_mem : ∀ (vs : List JVal) (slot : Option JVal) (v : JVal),
    publishAll slot vs = some v → v ∈ vs ∨ slot = some v := by
  intro vs
  induction vs with
  | nil => intro slot v h; exact Or.inr h
  | cons a t ih =>
    intro slot v h
    rcases ih (some a) v h with hm | hs
    · exact Or.inl (List.mem_cons_of_mem a hm)
    · injection hs with hs
      exact Or.inl (hs ▸ List.mem_cons_self a t)

/-- A non-empty (hence truthy) first snapshot. -/
def snapA : JVal := .obj [("timestamp", .obj [("simulation_time", .int 1)])]

/-- The empty JSON object: a document `json.loads` produces, the receiver
stores, and Python treats as falsy. -/
def snapEmpty : JVal := .obj []

/-- Counterexample to C5 as stated: publish `snapA` then the empty object.
The slot does hold the second value (the receiver stored it), but a read
of `latest()` yields nothing, not B — the reader's guard
`if self.receiver.latest_data:` (line 159) is a truthiness test, so a
falsy decoded document reads as absent. -/
theorem claim_C5_counterexample :
    publishAll latestInit [snapA, snapEmpty] = some snapEmpty ∧
    latest (publishAll latestInit [snapA, snapEmpty]) = none ∧
    latest (publishAll latestInit [snapA, snapEmpty]) ≠ some snapEmpty :=
  ⟨rfl, rfl, by simp [latest, publishAll, publish, latestInit, truthy, snapEmpty]⟩

/-- C5 amended: before any publish `latest()` returns nothing; after
publishing A then B a single read returns B whenever B is truthy (every
schema-conformant snapshot is a non-empty dict, hence truthy), while a
falsy decoded document (empty object, JSON `null`) reads as nothing —
never as A; and whatever a reader observes is one whole published value
(or the untouched initial content), never a composite — publish replaces
the slot wholesale, so no mixture of two snapshots can exist. -/
theorem claim_C5 :
    latest latestInit = none ∧
    (∀ A B : JVal, truthy B = true →
       latest (publishAll latestInit [A, B]) = some B) ∧
    (∀ A B : JVal, truthy B = false →
       latest (publishAll latestInit [A, B]) = none) ∧
    (∀ (slot : Option JVal) (vs : List JVal) (v : JVal),
       latest (publishAll slot vs) = some v → v ∈ vs ∨ slot = some v) := by
  refine ⟨rfl, ?_, ?_, ?_⟩
  · intro A B hB
    show latest (some B) = some B
    simp [latest, hB]
  · intro A B hB
    show latest (some B) = none
    simp [latest, hB]
  · intro slot vs v h
    cases hp : publishAll slot vs with
    | none => rw [hp] at h; simp [latest] at h
    | some w =>
      rw [hp] at h
      simp only [latest] at h
      by_cases ht : truthy w
      · rw [if_pos ht] at h
        injection h with h
        subst h
        exact publishAll_mem vs slot w hp
      · rw [if_neg ht] at h
        exact absurd h (by simp)

/-- Witness for the amended C5: a truthy second snapshot is read back
exactly; the empty object reads as nothing; and the value read is one of
the published values. -/
theorem claim_C5_witness :
    latest (publishAll latestInit [snapEmpty, snapA]) = some snapA ∧
    latest (publishAll latestInit [snapA, snapEmpty]) = none ∧
    (snapA ∈ ([snapEmpty, snapA] : List JVal) ∨ latestInit = some snapA) :=
  ⟨claim_C5.2.1 snapEmpty snapA rfl,
   claim_C5.2.2.1 snapA snapEmpty rfl,
   claim_C5.2.2.2 latestInit [snapEmpty, snapA] snapA
     (claim_C5.2.1 snapEmpty snapA rfl)⟩

/-- A UE whose `network` object lacks `distance_to_gnb`. -/
def ueNoDist : JVal :=
  .obj [("id", .int 1), ("imsi", .str "001"),
        ("network", .obj [("cell_id", .int 1)])]

/-- The same UE with an explicit distance of `0`. -/
def ueZeroDist : JVal :=
  .obj [("id", .int 1), ("imsi", .str "001"),
        ("network", .obj [("cell_id", .int 1), ("distance_to_gnb", .int 0)])]

/-- Counterexample to C6 as stated: with `network` present but
`distance_to_gnb` absent, both renderers coerce the absence to the number
`0` — the text report's distance cell (`.get('distance_to_gnb', 0)`, line
118) and the GUI's (`... or 0`, line 278) are identical to those of a UE
whose distance is genuinely `0`. -/
theorem claim_C6_counterexample :
    distBlock ueNoDist = .ok (.val 0) ∧
    distBlock ueZeroDist = .ok (.val 0) ∧
    distBlock ueNoDist = distBlock ueZeroDist ∧
    guiDistance (.obj [("cell_id", .int 1)]) = .ok 0 :=
  ⟨rfl, rfl, rfl, rfl⟩

/-- C6 amended: when the `network` object is present but lacks
`distance_to_gnb`, both front-ends render the distance as `0`,
indistinguishable from a present zero; only absence of the whole `network`
object is preserved as "N/A". -/
theorem claim_C6 :
    (∀ (u net : Obj) (cid : JVal),
       lookupO u "network" = some (.obj net) →
       lookupO net "cell_id" = some cid →
       lookupO net "distance_to_gnb" = none →
       distBlock (.obj u) = .ok (.val 0)) ∧
    (∀ net : Obj, lookupO net "distance_to_gnb" = none →
       guiDistance (.obj net) = .ok 0) ∧
    (∀ u : Obj, lookupO u "network" = none →
       distBlock (.obj u) = .ok .na) := by
  refine ⟨?_, ?_, ?_⟩
  · intro u net cid hn hc hd
    simp [distBlock, pyInJ, containsO, hn, osub, hc, jgetD, ogetD, hd,
      asNum, Bind.bind, Except.bind, pure, Except.pure]
  · intro net hd
    simp [guiDistance, jgetD, ogetD, hd, truthy, asNum,
      Bind.bind, Except.bind, pure, Except.pure]
  · intro u hn
    simp [distBlock, pyInJ, containsO, hn, Bind.bind, Except.bind, pure,
      Except.pure]

/-- Witness for the amended C6. -/
theorem claim_C6_witness :
    distBlock (.obj [("network", .obj [("cell_id", .int 2)])]) = .ok (.val 0) ∧
    guiDistance (.obj [("cell_id", .int 2)]) = .ok 0 ∧
    distBlock (.obj [("id", .int 9)]) = .ok .na :=
  ⟨claim_C6.1 [("network", .obj [("cell_id", .int 2)])] [("cell_id", .int 2)]
     (.int 2) rfl rfl rfl,
   claim_C6.2.1 [("cell_id", .int 2)] rfl,
   claim_C6.2.2 [("id", .int 9)] rfl⟩

/-- Counterexample to C9 as stated: after 0 received and 0 failed decodes
the final report does not yield a success rate of `0` — the success-rate
line is guarded by `if packets_received > 0:` (line 243) and is simply
omitted. -/
theorem claim_C9_counterexample :
    successRateLine ⟨0, 0⟩ = none ∧ successRateLine ⟨0, 0⟩ ≠ some 0 :=
  ⟨rfl, by simp [successRateLine]⟩

/-- C9 amended: the success rate is the percentage
`100 * received / (received + failed)`, computed and printed only when
`received > 0` (so no division error can occur; with both counters `0` the
line is omitted rather than showing `0`); the per-update rate shown by
`display_state` is `received / elapsed` and is `0` when elapsed is `0`,
while the final report omits its rate line when elapsed is `0`. -/
theorem claim_C9 :
    (∀ r f : Nat, 0 < r →
       successRateLine ⟨r, f⟩ =
         some (100 * (r : ℚ) / ((r : ℚ) + (f : ℚ)))) ∧
    (∀ f : Nat, successRateLine ⟨0, f⟩ = none) ∧
    (∀ n : Nat, updateRate n 0 = 0) ∧
    (∀ (n : Nat) (e : ℚ), 0 < e → updateRate n e = (n : ℚ) / e) ∧
    (∀ n : Nat, finalRateLine n 0 = none) ∧
    (∀ (n : Nat) (e : ℚ), 0 < e → finalRateLine n e = some ((n : ℚ) / e)) := by
  refine ⟨?_, ?_, ?_, ?_, ?_, ?_⟩
  · intro r f h; simp [successRateLine, h]
  · intro f; simp [successRateLine]
  · intro n; simp [updateRate]
  · intro n e h; simp [updateRate, h]
  · intro n; simp [finalRateLine]
  · intro n e h; simp [finalRateLine, h]

/-- Witness for the amended C9. -/
theorem claim_C9_witness :
    successRateLine ⟨3, 1⟩ = some (100 * (3 : ℚ) / ((3 : ℚ) + (1 : ℚ))) ∧
    successRateLine ⟨0, 5⟩ = none ∧
    updateRate 5 0 = 0 ∧
    finalRateLine 5 0 = none :=
  ⟨claim_C9.1 3 1 (by decide), claim_C9.2.1 5, claim_C9.2.2.1 5,
   claim_C9.2.2.2.2.1 5⟩

end AiRan
